import Mathlib

/-!  Verification of the OwlNest protocol-orchestration layer.

This file gives a shallow embedding of the advertise protocol
(`src/protocols/owlnest-advertise/src/behaviour.rs` and
`src/protocols/owlnest-advertise/src/handler.rs`) and of the blob
handle layer (`src/owlnest/src/net/p2p/protocols/blob.rs`), and proves
or refutes the specification claims about them.

Modelling conventions:
* `PeerId` is opaque in the source (equatable, hashable); it is a `Nat` here.
* `HashSet<PeerId>` is a duplicate-free `List PeerId`; `insert` is a no-op on
  a member, `remove` drops every occurrence, `clear` empties; these are the
  exact observable semantics a `HashSet` provides.
* `VecDeque` is a `List` with `push_back = ++ [x]` and `pop_front` matching
  on the head.
* Asynchronous futures are modelled by passing their poll outcome explicitly
  (an environment value), since the scheduler is external to the code.
-/

namespace OwlNest

/-- Opaque peer identifier (`libp2p::PeerId`): only equality is used. -/
abbrev PeerId := Nat

/-- Insert into a set modelled as a duplicate-free list
(`HashSet::insert`). -/
def setInsert (s : List PeerId) (p : PeerId) : List PeerId :=
  if p ∈ s then s else p :: s

/-- Remove from a set modelled as a duplicate-free list
(`HashSet::remove` drops the element wherever it sits). -/
def setRemove (s : List PeerId) (p : PeerId) : List PeerId :=
  s.filter (fun x => x != p)

namespace Advertise

/-- `Error` of `owlnest-advertise/src/lib.rs`. -/
inductive Error
  | connectionClosed
  | verifierMismatch
  | notProviding (peer : PeerId)
  | timeout
  | unrecognizedMessage (msg : String)
  | io (msg : String)
  | channel
deriving DecidableEq, Repr

end Advertise

namespace Advertise.Bhv

/-!  Embedding of `owlnest-advertise/src/behaviour.rs` exactly as it stands
in the tree.  Note: in this file the payload of `AnswerAdvertisedPeer` is a
plain `Vec<PeerId>` (`advertised_peers.iter().cloned().collect()` resp.
`Vec::new()`), while `handler.rs` in the same crate declares the payload as
`Option<Box<[PeerId]>>`; the types below follow `behaviour.rs`, the file the
claims cite for `Behaviour::poll`. -/

/-- `handler::FromBehaviour` as used by `behaviour.rs` (list payload,
two-argument `SetAdvertiseSelf`). -/
inductive FromBehaviour
  | queryAdvertisedPeer
  | answerAdvertisedPeer (result : List PeerId)
  | setAdvertiseSelf (state : Bool) (id : Nat)
deriving DecidableEq, Repr

/-- `OutEvent` variants constructed by `behaviour.rs`. -/
inductive OutEvent
  | queryAnswered (sender : PeerId) (list : List PeerId)
  | providerState (state : Bool) (id : Nat)
  | advertisedPeerChanged (peer : PeerId) (state : Bool)
  | error (e : Error)
deriving DecidableEq, Repr

/-- `InEvent` variants matched by `Behaviour::poll` in `behaviour.rs`
(callback channels are modelled by numeric channel ids). -/
inductive InEvent
  | queryAdvertisedPeer (relay : PeerId)
  | getProviderState (id : Nat)
  | setRemoteAdvertisement (remote : PeerId) (state : Bool) (id : Nat)
  | setProviderState (status : Bool) (id : Nat)
  | removeAdvertised (peer : PeerId)
  | listAdvertised (cb : Nat)
  | clearAdvertised
  | listConnected (cb : Nat)
deriving DecidableEq, Repr

/-- `handler::ToBehaviour` as consumed by
`Behaviour::on_connection_handler_event`. -/
inductive HandlerEvent
  | incomingQuery
  | incomingAdvertiseReq (state : Bool)
  | queryAnswered (result : List PeerId)
  | error (e : Error)
  | inboundNegotiated
  | outboundNegotiated
deriving DecidableEq, Repr

/-- The `Behaviour` state of `behaviour.rs`. -/
structure Behaviour where
  pending_out_events : List OutEvent
  in_events : List InEvent
  advertised_peers : List PeerId
  pending_query_answer : List PeerId
  connected_peers : List PeerId
  is_providing : Bool
deriving DecidableEq, Repr

/-- `Behaviour::new` / `Default::default`. -/
def Behaviour.new : Behaviour :=
  { pending_out_events := []
    in_events := []
    advertised_peers := []
    pending_query_answer := []
    connected_peers := []
    is_providing := false }

/-- `Behaviour::is_advertising`. -/
def Behaviour.is_advertising (b : Behaviour) (peer : PeerId) : Bool :=
  decide (peer ∈ b.advertised_peers)

/-- `Behaviour::set_provider_status`. -/
def Behaviour.set_provider_status (b : Behaviour) (status : Bool) : Behaviour :=
  { b with is_providing := status }

/-- `Behaviour::get_provider_status`. -/
def Behaviour.get_provider_status (b : Behaviour) : Bool :=
  b.is_providing

/-- `Behaviour::remove_advertised` (returns whether the peer was present,
like `HashSet::remove`). -/
def Behaviour.remove_advertised (b : Behaviour) (peer : PeerId) :
    Behaviour × Bool :=
  ({ b with advertised_peers := setRemove b.advertised_peers peer },
    decide (peer ∈ b.advertised_peers))

/-- `Behaviour::push_event`. -/
def Behaviour.push_event (b : Behaviour) (ev : InEvent) : Behaviour :=
  { b with in_events := b.in_events ++ [ev] }

/-- `ToSwarm` actions `Behaviour::poll` can resolve to
(`NotifyHandler { peer_id, handler: Any, event }` or `GenerateEvent`). -/
inductive ToSwarm
  | notifyHandler (peer : PeerId) (event : FromBehaviour)
  | generateEvent (ev : OutEvent)
deriving DecidableEq, Repr

/-- Result of one `poll` call: the updated behaviour, the payloads sent over
callback channels (`handle_callback_sender!`), and the resolved action
(`none` models `Poll::Pending`). -/
structure PollResult where
  st : Behaviour
  callbacks : List (Nat × List PeerId)
  action : Option ToSwarm
deriving DecidableEq, Repr

/-- The `while let Some(ev) = self.in_events.pop_front()` loop of
`Behaviour::poll`, processing commands until one resolves the poll. -/
def pollCommands (b : Behaviour) (acc : List (Nat × List PeerId)) :
    List InEvent → PollResult
  | [] => ⟨{ b with in_events := [] }, acc, none⟩
  | ev :: rest =>
    match ev with
    | .queryAdvertisedPeer relay =>
      if relay ∈ b.connected_peers then
        ⟨{ b with in_events := rest }, acc,
          some (.notifyHandler relay .queryAdvertisedPeer)⟩
      else
        pollCommands
          { b with pending_out_events :=
              b.pending_out_events ++ [.error (.notProviding relay)] }
          acc rest
    | .getProviderState id =>
      ⟨{ b with in_events := rest }, acc,
        some (.generateEvent (.providerState b.is_providing id))⟩
    | .setRemoteAdvertisement remote state id =>
      ⟨{ b with in_events := rest }, acc,
        some (.notifyHandler remote (.setAdvertiseSelf state id))⟩
    | .setProviderState status id =>
      ⟨{ b with in_events := rest, is_providing := status }, acc,
        some (.generateEvent (.providerState status id))⟩
    | .removeAdvertised peer =>
      ⟨{ b with in_events := rest, advertised_peers := setRemove b.advertised_peers peer }, acc,
        some (.generateEvent
          (.advertisedPeerChanged peer (decide (peer ∈ b.advertised_peers))))⟩
    | .listAdvertised cb =>
      pollCommands b (acc ++ [(cb, b.advertised_peers)]) rest
    | .clearAdvertised =>
      pollCommands { b with advertised_peers := [] } acc rest
    | .listConnected cb =>
      pollCommands b (acc ++ [(cb, b.connected_peers)]) rest

/-- `Behaviour::poll`: answer one pending query, else flush one pending out
event, else drain the command queue. -/
def Behaviour.poll (b : Behaviour) : PollResult :=
  match b.pending_query_answer with
  | peer_id :: restq =>
    if b.is_providing then
      ⟨{ b with pending_query_answer := restq }, [],
        some (.notifyHandler peer_id
          (.answerAdvertisedPeer b.advertised_peers))⟩
    else
      ⟨{ b with pending_query_answer := restq }, [],
        some (.notifyHandler peer_id (.answerAdvertisedPeer []))⟩
  | [] =>
    match b.pending_out_events with
    | ev :: resto =>
      ⟨{ b with pending_out_events := resto }, [], some (.generateEvent ev)⟩
    | [] => pollCommands b [] b.in_events

/-- `Behaviour::on_connection_handler_event`. -/
def Behaviour.on_connection_handler_event (b : Behaviour) (peer_id : PeerId)
    (event : HandlerEvent) : Behaviour :=
  match event with
  | .incomingQuery =>
    { b with pending_query_answer := b.pending_query_answer ++ [peer_id] }
  | .incomingAdvertiseReq state =>
    if state then
      { b with advertised_peers := setInsert b.advertised_peers peer_id }
    else
      { b with advertised_peers := setRemove b.advertised_peers peer_id }
  | .queryAnswered result =>
    { b with pending_out_events :=
        b.pending_out_events ++ [.queryAnswered peer_id result] }
  | .error e =>
    { b with pending_out_events := b.pending_out_events ++ [.error e] }
  | .inboundNegotiated => b
  | .outboundNegotiated =>
    { b with connected_peers := setInsert b.connected_peers peer_id }

/-- `FromSwarm` events matched by `Behaviour::on_swarm_event`. -/
inductive FromSwarm
  | connectionClosed (peer : PeerId) (remaining_established : Nat)
  | connectionEstablished (peer : PeerId)
  | otherEvent
deriving DecidableEq, Repr

/-- `Behaviour::on_swarm_event`. -/
def Behaviour.on_swarm_event (b : Behaviour) : FromSwarm → Behaviour
  | .connectionClosed peer remaining_established =>
    if remaining_established < 1 then
      { b with advertised_peers := setRemove b.advertised_peers peer, connected_peers := setRemove b.connected_peers peer }
    else b
  | .connectionEstablished peer =>
    { b with connected_peers := setInsert b.connected_peers peer }
  | .otherEvent => b

end Advertise.Bhv

namespace Advertise.Hdl

/-!  Embedding of `owlnest-advertise/src/handler.rs`.  This file declares the
payload of `AnswerAdvertisedPeer` as `Option<Box<[PeerId]>>` and a
one-argument `SetAdvertiseSelf` (unlike `behaviour.rs`, see above).
Substreams are identified by numbers; the poll outcome of each pending
future is supplied through an explicit environment. -/

/-- A negotiated substream, identified by a number. -/
abbrev Substream := Nat

/-- `FromBehaviour` of `handler.rs`. -/
inductive FromBehaviour
  | queryAdvertisedPeer
  | answerAdvertisedPeer (result : Option (List PeerId))
  | setAdvertiseSelf (state : Bool)
deriving DecidableEq, Repr

/-- `ToBehaviour` of `handler.rs`.  It has no Unsupported variant. -/
inductive ToBehaviour
  | incomingQuery
  | queryAnswered (result : Option (List PeerId))
  | incomingAdvertiseReq (state : Bool)
  | error (e : Error)
  | inboundNegotiated
  | outboundNegotiated
deriving DecidableEq, Repr

/-- The wire `Packet` of `handler.rs`. -/
inductive Packet
  | advertiseSelf (state : Bool)
  | queryAdvertisedPeer
  | answerAdvertisedPeer (result : Option (List PeerId))
deriving DecidableEq, Repr

/-- `impl From<Packet> for ToBehaviour`. -/
def Packet.toBehaviour : Packet → ToBehaviour
  | .advertiseSelf state => .incomingAdvertiseReq state
  | .queryAdvertisedPeer => .incomingQuery
  | .answerAdvertisedPeer result => .queryAnswered result

/-- Handler `State`. -/
inductive State
  | inactive (reported : Bool)
  | active
deriving DecidableEq, Repr

/-- `OutboundState`: `Busy` keeps the packet being sent and the stream the
send future will yield back (the codec returns the same stream). -/
inductive OutboundState
  | openStream
  | idle (stream : Substream)
  | busy (packet : Packet) (stream : Substream)
deriving DecidableEq, Repr

/-- The `Handler` state (`timeout` kept in seconds for fidelity; the timer
itself is driven by the environment below). -/
structure Handler where
  state : State
  pending_in_events : List FromBehaviour
  pending_out_events : List ToBehaviour
  timeout : Nat
  inbound : Option Substream
  outbound : Option OutboundState
deriving DecidableEq, Repr

/-- `Handler::new` / `Default::default`. -/
def Handler.new : Handler :=
  { state := .active
    pending_in_events := []
    pending_out_events := []
    timeout := 20
    inbound := none
    outbound := none }

/-- `Handler::on_behaviour_event`. -/
def Handler.on_behaviour_event (h : Handler) (event : FromBehaviour) : Handler :=
  { h with pending_in_events := h.pending_in_events ++ [event] }

/-- `Handler::connection_keep_alive` — the body is literally `true`. -/
def Handler.connection_keep_alive (_h : Handler) : Bool :=
  true

/-- Poll outcome of the pending inbound `recv` future: still pending,
resolved to an I/O error, or resolved to a frame of bytes (the codec hands
the same stream back, so only the bytes are supplied). -/
inductive RecvPoll
  | pendingR
  | readyErr (e : String)
  | readyOk (bytes : List Nat)

/-- Poll outcome of one encounter with a `Busy` outbound send future,
together with its timeout timer. -/
inductive BusyPoll
  | sendPendingTimerPending
  | sendPendingTimerReady
  | sendOk (rtt : Nat)
  | sendErr (e : String)

/-- The asynchronous environment of one `Handler::poll` call: the outcome of
the inbound future, the successive outcomes of outbound `Busy` futures, and
the byte-level packet decoder (`serde_json::from_slice::<Packet>`). -/
structure HandlerEnv where
  recvPoll : RecvPoll
  busyPolls : List BusyPoll
  decode : List Nat → Except String Packet

/-- Abstraction of `String::from_utf8_lossy` used only to build the
diagnostic text of `UnrecognizedMessage`. -/
def fromUtf8Lossy (bytes : List Nat) : String :=
  toString bytes

/-- `Handler::poll_inbound`: on an I/O error drop the inbound direction; on
a frame re-arm `recv` on the same stream and queue either the decoded
packet's event or `Error(UnrecognizedMessage(..))`. -/
def Handler.poll_inbound (h : Handler) (env : HandlerEnv) : Handler :=
  match h.inbound with
  | none => h
  | some s =>
    match env.recvPoll with
    | .pendingR => h
    | .readyErr e =>
      { h with inbound := none, pending_out_events := h.pending_out_events ++ [.error (.io ("IO Error: " ++ e))] }
    | .readyOk bytes =>
      let ev : ToBehaviour :=
        match env.decode bytes with
        | .ok packet => packet.toBehaviour
        | .error e =>
          .error (.unrecognizedMessage
            ("Unrecognized message: " ++ e ++ ", raw data: " ++ fromUtf8Lossy bytes))
      { h with inbound := some s, pending_out_events := h.pending_out_events ++ [ev] }

/-- The packet built for a behaviour command in the `Idle` arm of
`poll_outbound`. -/
def FromBehaviour.toPacket : FromBehaviour → Packet
  | .queryAdvertisedPeer => .queryAdvertisedPeer
  | .answerAdvertisedPeer result => .answerAdvertisedPeer result
  | .setAdvertiseSelf state => .advertiseSelf state

/-- The `loop` of `Handler::poll_outbound`.  Returns the handler, the busy
outcomes not yet consumed, and whether an `OutboundSubstreamRequest` was
returned.  Fuel only bounds the loop; each iteration that continues consumes
either a busy outcome or a queued command, so the fuel chosen in
`Handler.pollBody` is never exhausted. -/
def pollOutboundGo : Nat → Handler → List BusyPoll → Handler × List BusyPoll × Bool
  | 0, h, busy => (h, busy, false)
  | fuel + 1, h, busy =>
    match h.outbound with
    | some (.busy _packet stream) =>
      match busy with
      | [] => (h, [], false)
      | outcome :: rest =>
        match outcome with
        | .sendPendingTimerPending => (h, rest, false)
        | .sendPendingTimerReady =>
          pollOutboundGo fuel
            { h with outbound := none, pending_out_events := h.pending_out_events ++ [.error .timeout] }
            rest
        | .sendOk _rtt =>
          pollOutboundGo fuel { h with outbound := some (.idle stream) } rest
        | .sendErr e =>
          pollOutboundGo fuel
            { h with outbound := none, pending_out_events := h.pending_out_events ++ [.error (.io ("IO Error: " ++ e))] }
            rest
    | some (.idle stream) =>
      match h.pending_in_events with
      | [] => (h, busy, false)
      | ev :: rest =>
        pollOutboundGo fuel
          { h with pending_in_events := rest, outbound := some (.busy ev.toPacket stream) }
          busy
    | some .openStream => (h, busy, false)
    | none => ({ h with outbound := some .openStream }, busy, true)

/-- What one `Handler::poll` call resolves to. -/
inductive PollOut
  | pendingOut
  | substreamRequest
  | notifyBehaviour (ev : ToBehaviour)
deriving DecidableEq, Repr

/-- Body of `Handler::poll` after the state check: poll inbound, poll
outbound (returning a substream request if one is raised), else flush one
pending out event. -/
def Handler.pollBody (h : Handler) (env : HandlerEnv) : Handler × PollOut :=
  let h1 := h.poll_inbound env
  let r := pollOutboundGo (env.busyPolls.length + h1.pending_in_events.length + 2) h1 env.busyPolls
  if r.2.2 then (r.1, .substreamRequest)
  else
    match r.1.pending_out_events with
    | ev :: rest => ({ r.1 with pending_out_events := rest }, .notifyBehaviour ev)
    | [] => (r.1, .pendingOut)

/-- `Handler::poll`: `Inactive{reported: true}` returns `Pending` at once;
`Inactive{reported: false}` first flips `reported` and continues; `Active`
continues directly. -/
def Handler.poll (h : Handler) (env : HandlerEnv) : Handler × PollOut :=
  match h.state with
  | .inactive true => (h, .pendingOut)
  | .inactive false => Handler.pollBody { h with state := .inactive true } env
  | .active => Handler.pollBody h env

/-- `libp2p::StreamUpgradeError` as matched by `on_dial_upgrade_error`:
only `NegotiationFailed` is treated specially, every other variant is just
logged. -/
inductive StreamUpgradeError
  | negotiationFailed
  | timedOut
  | applyErr (e : String)
  | ioErr (e : String)
deriving DecidableEq, Repr

/-- `Handler::on_dial_upgrade_error`: clear the outbound slot; on
`NegotiationFailed` enter `Inactive{reported: false}`.  No event is pushed. -/
def Handler.on_dial_upgrade_error (h : Handler) (error : StreamUpgradeError) : Handler :=
  let h := { h with outbound := none }
  match error with
  | .negotiationFailed => { h with state := .inactive false }
  | _ => h

/-- `ConnectionEvent` variants handled by `Handler::on_connection_event`. -/
inductive ConnectionEvent
  | fullyNegotiatedInbound (stream : Substream)
  | fullyNegotiatedOutbound (stream : Substream)
  | dialUpgradeError (error : StreamUpgradeError)
  | protocolsChange
deriving DecidableEq, Repr

/-- `Handler::on_connection_event`. -/
def Handler.on_connection_event (h : Handler) : ConnectionEvent → Handler
  | .fullyNegotiatedInbound stream =>
    { h with inbound := some stream, pending_out_events := h.pending_out_events ++ [.inboundNegotiated] }
  | .fullyNegotiatedOutbound stream =>
    { h with outbound := some (.idle stream), pending_out_events := h.pending_out_events ++ [.outboundNegotiated] }
  | .dialUpgradeError error => h.on_dial_upgrade_error error
  | .protocolsChange => h

end Advertise.Hdl

namespace Blob

/-!  Embedding of the blob handle layer,
`src/owlnest/src/net/p2p/protocols/blob.rs` (`Handle::send_file` and
`Handle::recv_file`).  The filesystem touched through `std::fs::OpenOptions`
is modelled explicitly as a finite map from paths to nodes, and every
outcome records which paths were handed to the OS `open` call and which
commands were sent to the swarm task. -/

/-- A filesystem node: a regular file with its byte contents, or a
directory. -/
inductive FsNode
  | file (contents : List Nat)
  | dir
deriving DecidableEq, Repr

/-- The filesystem: an association list from paths to nodes. -/
abbrev Fs := List (String × FsNode)

/-- `std::io::ErrorKind`, restricted to the kinds the blob handle
distinguishes. -/
inductive ErrorKind
  | alreadyExists
  | notFound
  | permissionDenied
  | isADirectory
  | otherKind (s : String)
deriving DecidableEq, Repr

/-- Modelled from the spec: `FileRecvError` lives in the `owlnest-blob`
crate, which is not in the tree; the `FsError{path, error}` shape is the one
`blob.rs` constructs, the remaining variants follow spec section 4.5. -/
inductive FileRecvError
  | fsError (path : String) (error : ErrorKind)
  | timeout
  | cancelled
  | unknownRecvId
deriving DecidableEq, Repr

/-- Modelled from the spec: `FileSendError` lives in the `owlnest-blob`
crate, which is not in the tree; the variants `blob.rs` constructs
(`IsDirectory`, `FileNotFound`, `PermissionDenied`, `OtherFsError`) plus the
remaining ones of spec section 4.5. -/
inductive FileSendError
  | isDirectory
  | fileNotFound
  | permissionDenied
  | otherFsError (kind : ErrorKind)
  | timeout
  | peerNotFound
  | cancelled
deriving DecidableEq, Repr

/-- Commands the handle sends to the swarm task (`InEvent::SendFile` /
`InEvent::AcceptFile`; file handles are identified by their path, callback
channels are left implicit). -/
inductive Command
  | sendFileCmd (file_path : String) (target : PeerId)
  | acceptFile (path : String) (recv_id : Nat)
deriving DecidableEq, Repr

/-- `path.is_dir()`. -/
def isDir (fs : Fs) (path : String) : Bool :=
  match fs.lookup path with
  | some .dir => true
  | _ => false

/-- `OpenOptions::new().create_new(true).read(true).write(true).open(path)`:
`create_new` demands that the path not exist; on an existing path (file or
directory) it fails with `AlreadyExists` and leaves the filesystem — in
particular any existing contents — untouched; otherwise it atomically
creates an empty file. -/
def openCreateNew (fs : Fs) (path : String) : Except ErrorKind Fs :=
  match fs.lookup path with
  | some _ => .error .alreadyExists
  | none => .ok ((path, .file []) :: fs)

/-- `OpenOptions::new().read(true).write(false).open(path)`: read-only, so
the filesystem is never modified; a missing path is `NotFound`.  (The
directory arm is unreachable from `send_file`, which checks `is_dir`
first.) -/
def openReadOnly (fs : Fs) (path : String) : Except ErrorKind Unit :=
  match fs.lookup path with
  | some (.file _) => .ok ()
  | some .dir => .error .isADirectory
  | none => .error .notFound

/-- Outcome of one handle operation: the filesystem afterwards, the paths
passed to an OS `open` call, the commands sent to the swarm task, and the
error returned early (if any). -/
structure Outcome (ε : Type) where
  fs : Fs
  opened : List String
  sent : List Command
  err : Option ε

/-- `Handle::send_file` up to the dispatch of `InEvent::SendFile`: reject a
directory path before any I/O, then open the source read-only, mapping
`NotFound`/`PermissionDenied` and wrapping any other kind in
`OtherFsError`. -/
def send_file (fs : Fs) (target : PeerId) (path : String) : Outcome FileSendError :=
  if isDir fs path then ⟨fs, [], [], some .isDirectory⟩
  else
    match openReadOnly fs path with
    | .error kind =>
      ⟨fs, [path], [],
        some (match kind with
          | .notFound => .fileNotFound
          | .permissionDenied => .permissionDenied
          | e => .otherFsError e)⟩
    | .ok _ => ⟨fs, [path], [.sendFileCmd path target], none⟩

/-- `Handle::recv_file` up to the dispatch of `InEvent::AcceptFile`: open
the destination with `create_new`, mapping a failure kind into
`FsError{path, kind}`. -/
def recv_file (fs : Fs) (recv_id : Nat) (path_to_write : String) :
    Outcome FileRecvError :=
  match openCreateNew fs path_to_write with
  | .error kind => ⟨fs, [path_to_write], [], some (.fsError path_to_write kind)⟩
  | .ok fs' => ⟨fs', [path_to_write], [.acceptFile path_to_write recv_id], none⟩

end Blob

end OwlNest

open OwlNest

/-- C1: evaluation of `Behaviour::poll` at the failing input.  With
`is_providing = false` and a pending incoming query from peer 7, the
behaviour as written sends `AnswerAdvertisedPeer` carrying an empty list —
the very same event it sends when `is_providing = true` with an empty
advertised set — so the `Some(advertised_peers)` / `None` distinction the
claim (and `handler.rs`, whose payload type is `Option<Box<[PeerId]>>`, and
the repository's own integration test) requires is not produced. -/
theorem C1_answer_payload_eval :
    (Advertise.Bhv.Behaviour.poll
      { Advertise.Bhv.Behaviour.new with pending_query_answer := [7] }).action
      = some (.notifyHandler 7 (.answerAdvertisedPeer [])) ∧
    (Advertise.Bhv.Behaviour.poll
      { Advertise.Bhv.Behaviour.new with pending_query_answer := [7], is_providing := true }).action
      = some (.notifyHandler 7 (.answerAdvertisedPeer [])) :=
  ⟨rfl, rfl⟩

/-- C2: accepting a blob transfer (`Handle::recv_file`) into an existing
file fails with `FsError{kind: AlreadyExists}`, sends no command to the
swarm task, and leaves the filesystem — in particular the existing file's
contents — unchanged. -/
theorem C2_recv_into_existing_file (fs : Blob.Fs) (recv_id : Nat)
    (path : String) (c : List Nat) (hex : fs.lookup path = some (.file c)) :
    (Blob.recv_file fs recv_id path).err = some (.fsError path .alreadyExists) ∧
    (Blob.recv_file fs recv_id path).fs = fs ∧
    (Blob.recv_file fs recv_id path).fs.lookup path = some (.file c) ∧
    (Blob.recv_file fs recv_id path).sent = [] := by
  simp [Blob.recv_file, Blob.openCreateNew, hex]

/-- Witness for C2 at a concrete filesystem holding the file "dest.txt"
with contents [1, 2, 3]. -/
theorem C2_recv_into_existing_file_witness :
    (Blob.recv_file [("dest.txt", .file [1, 2, 3])] 0 "dest.txt").err
      = some (.fsError "dest.txt" .alreadyExists) ∧
    (Blob.recv_file [("dest.txt", .file [1, 2, 3])] 0 "dest.txt").fs
      = [("dest.txt", .file [1, 2, 3])] ∧
    (Blob.recv_file [("dest.txt", .file [1, 2, 3])] 0 "dest.txt").fs.lookup "dest.txt"
      = some (.file [1, 2, 3]) ∧
    (Blob.recv_file [("dest.txt", .file [1, 2, 3])] 0 "dest.txt").sent = [] :=
  C2_recv_into_existing_file [("dest.txt", .file [1, 2, 3])] 0 "dest.txt" [1, 2, 3] rfl

/-- C3 counterexample: transitioning a fresh handler into `Inactive` via a
failed negotiation pushes zero events to the behaviour, not exactly one
`Unsupported` event (no such variant even exists in `ToBehaviour`). -/
theorem C3_inactive_pushes_nothing :
    (Advertise.Hdl.Handler.new.on_dial_upgrade_error .negotiationFailed).pending_out_events = [] ∧
    (Advertise.Hdl.Handler.new.on_dial_upgrade_error .negotiationFailed).state = .inactive false :=
  ⟨rfl, rfl⟩

/-- `poll_inbound` never changes the handler's protocol state. -/
theorem poll_inbound_state (h : Advertise.Hdl.Handler)
    (env : Advertise.Hdl.HandlerEnv) :
    (h.poll_inbound env).state = h.state := by
  unfold Advertise.Hdl.Handler.poll_inbound
  cases h.inbound <;> cases env.recvPoll <;> rfl

/-- The outbound loop never changes the handler's protocol state. -/
theorem pollOutboundGo_state (fuel : Nat) (h : Advertise.Hdl.Handler)
    (busy : List Advertise.Hdl.BusyPoll) :
    (Advertise.Hdl.pollOutboundGo fuel h busy).1.state = h.state := by
  induction fuel generalizing h busy with
  | zero => rfl
  | succ n ih =>
    unfold Advertise.Hdl.pollOutboundGo
    cases h.outbound with
    | none => rfl
    | some ob =>
      cases ob with
      | openStream => rfl
      | idle stream =>
        cases h.pending_in_events with
        | nil => rfl
        | cons ev rest => exact ih _ _
      | busy packet stream =>
        cases busy with
        | nil => rfl
        | cons outcome rest =>
          cases outcome with
          | sendPendingTimerPending => rfl
          | sendPendingTimerReady => exact ih _ _
          | sendOk rtt => exact ih _ _
          | sendErr e => exact ih _ _

/-- `pollBody` never changes the handler's protocol state. -/
theorem pollBody_state (h : Advertise.Hdl.Handler)
    (env : Advertise.Hdl.HandlerEnv) :
    (h.pollBody env).1.state = h.state := by
  unfold Advertise.Hdl.Handler.pollBody
  dsimp only
  have hout := pollOutboundGo_state
    (env.busyPolls.length + (h.poll_inbound env).pending_in_events.length + 2)
    (h.poll_inbound env) env.busyPolls
  have hinb := poll_inbound_state h env
  split
  · exact hout.trans hinb
  · split
    · exact hout.trans hinb
    · exact hout.trans hinb

/-- C3 (amended): for every handler, a dial-upgrade error pushes no event
to the behaviour and `NegotiationFailed` moves the handler to
`Inactive{reported: false}`; the first poll after that transition flips
`reported` to `true`; and once `reported = true` every `poll` returns
`Pending` with the handler unchanged (the handler is silent). -/
theorem C3_inactive_transition_amended (h : Advertise.Hdl.Handler)
    (e : Advertise.Hdl.StreamUpgradeError) (env env2 : Advertise.Hdl.HandlerEnv) :
    (h.on_dial_upgrade_error e).pending_out_events = h.pending_out_events ∧
    (h.on_dial_upgrade_error .negotiationFailed).state = .inactive false ∧
    ((h.on_dial_upgrade_error .negotiationFailed).poll env).1.state
      = .inactive true ∧
    (h.state = .inactive true → h.poll env2 = (h, .pendingOut)) := by
  refine ⟨?_, rfl, ?_, ?_⟩
  · cases e <;> rfl
  · exact pollBody_state
      { h.on_dial_upgrade_error .negotiationFailed with state := .inactive true } env
  · intro hst
    simp only [Advertise.Hdl.Handler.poll, hst]

/-- Witness for C3 (amended): the transition conjuncts at the fresh
handler, and the silence conjunct at a handler already in
`Inactive{reported: true}`. -/
theorem C3_inactive_transition_amended_witness :
    (Advertise.Hdl.Handler.new.on_dial_upgrade_error .timedOut).pending_out_events
      = Advertise.Hdl.Handler.new.pending_out_events ∧
    (Advertise.Hdl.Handler.new.on_dial_upgrade_error .negotiationFailed).state
      = .inactive false ∧
    ((Advertise.Hdl.Handler.new.on_dial_upgrade_error .negotiationFailed).poll
        ⟨.pendingR, [], fun _ => .error "EOF while parsing a value"⟩).1.state
      = .inactive true ∧
    { Advertise.Hdl.Handler.new with state := .inactive true }.poll
        ⟨.pendingR, [], fun _ => .error "EOF while parsing a value"⟩
      = ({ Advertise.Hdl.Handler.new with state := .inactive true }, .pendingOut) :=
  ⟨(C3_inactive_transition_amended Advertise.Hdl.Handler.new .timedOut
      ⟨.pendingR, [], fun _ => .error "EOF while parsing a value"⟩
      ⟨.pendingR, [], fun _ => .error "EOF while parsing a value"⟩).1,
    (C3_inactive_transition_amended Advertise.Hdl.Handler.new .timedOut
      ⟨.pendingR, [], fun _ => .error "EOF while parsing a value"⟩
      ⟨.pendingR, [], fun _ => .error "EOF while parsing a value"⟩).2.1,
    (C3_inactive_transition_amended Advertise.Hdl.Handler.new .timedOut
      ⟨.pendingR, [], fun _ => .error "EOF while parsing a value"⟩
      ⟨.pendingR, [], fun _ => .error "EOF while parsing a value"⟩).2.2.1,
    (C3_inactive_transition_amended
      { Advertise.Hdl.Handler.new with state := .inactive true } .timedOut
      ⟨.pendingR, [], fun _ => .error "EOF while parsing a value"⟩
      ⟨.pendingR, [], fun _ => .error "EOF while parsing a value"⟩).2.2.2 rfl⟩

/-- C4 counterexample: for a handler in the `Inactive` state,
`connection_keep_alive` still returns `true`, not `false` as the claim
states — the body of the function is literally `true`. -/
theorem C4_keep_alive_counterexample :
    Advertise.Hdl.Handler.connection_keep_alive
      { Advertise.Hdl.Handler.new with state := .inactive true } ≠ false := by
  decide

/-- C4 (amended): `connection_keep_alive` returns `true` for every handler
state, `Active` or `Inactive`. -/
theorem C4_keep_alive_amended (h : Advertise.Hdl.Handler) :
    h.connection_keep_alive = true :=
  rfl

/-- C5: processing `ConnectionClosed(P)` with `remaining_established = 0`
removes P from both `connected_peers` and `advertised_peers`, and
`ConnectionEstablished(P)` inserts P into `connected_peers`. -/
theorem C5_connection_lifecycle (b : Advertise.Bhv.Behaviour) (p : PeerId) :
    p ∉ (b.on_swarm_event (.connectionClosed p 0)).connected_peers ∧
    p ∉ (b.on_swarm_event (.connectionClosed p 0)).advertised_peers ∧
    p ∈ (b.on_swarm_event (.connectionEstablished p)).connected_peers := by
  refine ⟨?_, ?_, ?_⟩
  · simp [Advertise.Bhv.Behaviour.on_swarm_event, setRemove, List.mem_filter]
  · simp [Advertise.Bhv.Behaviour.on_swarm_event, setRemove, List.mem_filter]
  · simp only [Advertise.Bhv.Behaviour.on_swarm_event, setInsert]
    split
    · assumption
    · exact List.mem_cons_self p _


/-- C6: a `QueryAdvertisedPeer(relay)` command with `relay` not in
`connected_peers` queues `Error(NotProviding(relay))` — emitted by the next
poll — and notifies no handler (the poll resolves `Pending`); with `relay`
connected it dispatches the `QueryAdvertisedPeer` command to relay's
handler. -/
theorem C6_query_not_connected (b : Advertise.Bhv.Behaviour) (relay : PeerId)
    (hq : b.pending_query_answer = []) (ho : b.pending_out_events = [])
    (hin : b.in_events = [.queryAdvertisedPeer relay]) :
    (relay ∉ b.connected_peers →
      b.poll.action = none ∧
      b.poll.st.pending_out_events = [.error (.notProviding relay)] ∧
      b.poll.st.poll.action = some (.generateEvent (.error (.notProviding relay)))) ∧
    (relay ∈ b.connected_peers →
      b.poll.action = some (.notifyHandler relay .queryAdvertisedPeer)) := by
  obtain ⟨po, ie, ap, pq, cp, ip⟩ := b
  simp only at hq ho hin
  subst hq ho hin
  constructor
  · intro hmem
    refine ⟨?_, ?_, ?_⟩ <;>
      simp [Advertise.Bhv.Behaviour.poll, Advertise.Bhv.pollCommands, hmem]
  · intro hmem
    simp [Advertise.Bhv.Behaviour.poll, Advertise.Bhv.pollCommands, hmem]

/-- Witness for C6 at concrete behaviours: peer 5 unconnected on the first,
connected on the second. -/
theorem C6_query_not_connected_witness :
    ((Advertise.Bhv.Behaviour.poll
        { Advertise.Bhv.Behaviour.new with in_events := [.queryAdvertisedPeer 5] }).action
        = none ∧
      (Advertise.Bhv.Behaviour.poll
        { Advertise.Bhv.Behaviour.new with in_events := [.queryAdvertisedPeer 5] }).st.pending_out_events
        = [.error (.notProviding 5)] ∧
      ((Advertise.Bhv.Behaviour.poll
        { Advertise.Bhv.Behaviour.new with in_events := [.queryAdvertisedPeer 5] }).st.poll).action
        = some (.generateEvent (.error (.notProviding 5)))) ∧
    (Advertise.Bhv.Behaviour.poll
        { Advertise.Bhv.Behaviour.new with in_events := [.queryAdvertisedPeer 5], connected_peers := [5] }).action
      = some (.notifyHandler 5 .queryAdvertisedPeer) :=
  ⟨(C6_query_not_connected
      { Advertise.Bhv.Behaviour.new with in_events := [.queryAdvertisedPeer 5] }
      5 rfl rfl rfl).1 (by decide),
    (C6_query_not_connected
      { Advertise.Bhv.Behaviour.new with in_events := [.queryAdvertisedPeer 5], connected_peers := [5] }
      5 rfl rfl rfl).2 (by decide)⟩

/-- C7: `Handle::send_file` on a directory path returns the `IsDirectory`
error before any I/O: the filesystem is untouched, no `open` call is made,
and no command is sent to the swarm task. -/
theorem C7_send_file_directory (fs : Blob.Fs) (target : PeerId) (path : String)
    (hdir : fs.lookup path = some .dir) :
    Blob.send_file fs target path = ⟨fs, [], [], some .isDirectory⟩ := by
  simp [Blob.send_file, Blob.isDir, hdir]

/-- Witness for C7 at a concrete filesystem with a directory "downloads". -/
theorem C7_send_file_directory_witness :
    Blob.send_file [("downloads", .dir)] 9 "downloads"
      = ⟨[("downloads", .dir)], [], [], some .isDirectory⟩ :=
  C7_send_file_directory [("downloads", .dir)] 9 "downloads" rfl

/-- C8: when an inbound frame fails to decode as a `Packet`, `poll_inbound`
queues `Error(UnrecognizedMessage(detail))` for the behaviour, keeps the
inbound substream, and re-arms a fresh `recv` on the same stream, so
subsequent frames are still processed. -/
theorem C8_parse_failure_rearm (h : Advertise.Hdl.Handler)
    (env : Advertise.Hdl.HandlerEnv) (s : Advertise.Hdl.Substream)
    (bytes : List Nat) (e : String)
    (hin : h.inbound = some s) (hrecv : env.recvPoll = .readyOk bytes)
    (hdec : env.decode bytes = .error e) :
    (h.poll_inbound env).inbound = some s ∧
    (h.poll_inbound env).pending_out_events = h.pending_out_events ++
      [.error (.unrecognizedMessage
        ("Unrecognized message: " ++ e ++ ", raw data: " ++
          Advertise.Hdl.fromUtf8Lossy bytes))] := by
  simp [Advertise.Hdl.Handler.poll_inbound, hin, hrecv, hdec]

/-- Witness for C8 at a concrete handler whose inbound stream 0 yields the
undecodable frame [102], with a decoder that rejects it. -/
theorem C8_parse_failure_rearm_witness :
    ({ Advertise.Hdl.Handler.new with inbound := some 0 }.poll_inbound
        ⟨.readyOk [102], [], fun _ => .error "expected value"⟩).inbound = some 0 ∧
    ({ Advertise.Hdl.Handler.new with inbound := some 0 }.poll_inbound
        ⟨.readyOk [102], [], fun _ => .error "expected value"⟩).pending_out_events
      = ({ Advertise.Hdl.Handler.new with inbound := some 0 } :
          Advertise.Hdl.Handler).pending_out_events ++
        [.error (.unrecognizedMessage
          ("Unrecognized message: " ++ "expected value" ++ ", raw data: " ++
            Advertise.Hdl.fromUtf8Lossy [102]))] :=
  C8_parse_failure_rearm { Advertise.Hdl.Handler.new with inbound := some 0 }
    ⟨.readyOk [102], [], fun _ => .error "expected value"⟩ 0 [102] "expected value"
    rfl rfl rfl

/-- The command loop of `Behaviour::poll` changes `is_providing` only when
it processes a `SetProviderState` command. -/
theorem pollCommands_is_providing (l : List Advertise.Bhv.InEvent)
    (b : Advertise.Bhv.Behaviour) (acc : List (Nat × List PeerId))
    (hl : ∀ y j, Advertise.Bhv.InEvent.setProviderState y j ∉ l) :
    (Advertise.Bhv.pollCommands b acc l).st.is_providing = b.is_providing := by
  induction l generalizing b acc with
  | nil => rfl
  | cons ev rest ih =>
    have hrest : ∀ y j, Advertise.Bhv.InEvent.setProviderState y j ∉ rest := by
      intro y j hmem
      exact hl y j (List.mem_cons_of_mem _ hmem)
    cases ev with
    | queryAdvertisedPeer relay =>
      by_cases hc : relay ∈ b.connected_peers
      · simp [Advertise.Bhv.pollCommands, hc]
      · simpa [Advertise.Bhv.pollCommands, hc] using ih _ _ hrest
    | getProviderState id => rfl
    | setRemoteAdvertisement remote state id => rfl
    | setProviderState status id =>
      exact absurd (List.mem_cons_self _ _) (fun hmem => hl status id hmem)
    | removeAdvertised peer => rfl
    | listAdvertised cb =>
      simpa [Advertise.Bhv.pollCommands] using ih _ _ hrest
    | clearAdvertised =>
      simpa [Advertise.Bhv.pollCommands] using ih _ _ hrest
    | listConnected cb =>
      simpa [Advertise.Bhv.pollCommands] using ih _ _ hrest

/-- C9: processing `SetProviderState(x)` sets `is_providing` to `x` and
echoes `x` back (as `ProviderState(x, id)`); a subsequent
`GetProviderState` returns `x`; and a poll whose command queue contains no
`SetProviderState` leaves `is_providing` unchanged. -/
theorem C9_set_then_get_provider (b : Advertise.Bhv.Behaviour) (x : Bool)
    (id id2 : Nat)
    (hq : b.pending_query_answer = []) (ho : b.pending_out_events = []) :
    ((Advertise.Bhv.Behaviour.poll
        { b with in_events := [.setProviderState x id] }).action
        = some (.generateEvent (.providerState x id)) ∧
      (Advertise.Bhv.Behaviour.poll
        { b with in_events := [.setProviderState x id] }).st.is_providing = x ∧
      (Advertise.Bhv.Behaviour.poll
        { (Advertise.Bhv.Behaviour.poll
            { b with in_events := [.setProviderState x id] }).st
          with in_events := [.getProviderState id2] }).action
        = some (.generateEvent (.providerState x id2))) ∧
    (∀ b2 : Advertise.Bhv.Behaviour,
      (∀ y j, Advertise.Bhv.InEvent.setProviderState y j ∉ b2.in_events) →
      (Advertise.Bhv.Behaviour.poll b2).st.is_providing = b2.is_providing) := by
  constructor
  · obtain ⟨po, ie, ap, pq, cp, ip⟩ := b
    simp only at hq ho
    subst hq ho
    exact ⟨rfl, rfl, rfl⟩
  · intro b2 hb2
    obtain ⟨po, ie, ap, pq, cp, ip⟩ := b2
    cases pq with
    | cons q restq => cases ip <;> rfl
    | nil =>
      cases po with
      | cons ev resto => rfl
      | nil => exact pollCommands_is_providing ie _ [] hb2

/-- Witness for C9 with `x = true` starting from the fresh behaviour, and
the preservation conjunct instantiated at a behaviour holding only a
`GetProviderState` command. -/
theorem C9_set_then_get_provider_witness :
    (Advertise.Bhv.Behaviour.poll
        { Advertise.Bhv.Behaviour.new with in_events := [.setProviderState true 0] }).action
      = some (.generateEvent (.providerState true 0)) ∧
    (Advertise.Bhv.Behaviour.poll
        { (Advertise.Bhv.Behaviour.poll
            { Advertise.Bhv.Behaviour.new with in_events := [.setProviderState true 0] }).st
          with in_events := [.getProviderState 1] }).action
      = some (.generateEvent (.providerState true 1)) ∧
    (Advertise.Bhv.Behaviour.poll
        { Advertise.Bhv.Behaviour.new with in_events := [.getProviderState 2] }).st.is_providing
      = ({ Advertise.Bhv.Behaviour.new with in_events := [.getProviderState 2] } :
          Advertise.Bhv.Behaviour).is_providing :=
  ⟨((C9_set_then_get_provider Advertise.Bhv.Behaviour.new true 0 1 rfl rfl).1).1,
    ((C9_set_then_get_provider Advertise.Bhv.Behaviour.new true 0 1 rfl rfl).1).2.2,
    (C9_set_then_get_provider Advertise.Bhv.Behaviour.new true 0 1 rfl rfl).2
      { Advertise.Bhv.Behaviour.new with in_events := [.getProviderState 2] }
      (by intro y j hmem; simp at hmem)⟩

/-- C10: `RemoveAdvertised(P)` emits `AdvertisedPeerChanged(P, b)` with `b`
true exactly when P was advertised before, and P is no longer advertised
afterwards; `ClearAdvertised` empties the set and emits nothing. -/
theorem C10_remove_vs_clear (b : Advertise.Bhv.Behaviour) (p : PeerId)
    (hq : b.pending_query_answer = []) (ho : b.pending_out_events = [])
    (hin : b.in_events = [.removeAdvertised p]) :
    (b.poll.action
        = some (.generateEvent
            (.advertisedPeerChanged p (decide (p ∈ b.advertised_peers)))) ∧
      p ∉ b.poll.st.advertised_peers) ∧
    (∀ b2 : Advertise.Bhv.Behaviour, b2.pending_query_answer = [] →
      b2.pending_out_events = [] → b2.in_events = [.clearAdvertised] →
      (b2.poll.st.advertised_peers = [] ∧ b2.poll.action = none ∧
        b2.poll.st.pending_out_events = [] ∧ b2.poll.callbacks = [])) := by
  constructor
  · obtain ⟨po, ie, ap, pq, cp, ip⟩ := b
    simp only at hq ho hin
    subst hq ho hin
    refine ⟨rfl, ?_⟩
    simp [Advertise.Bhv.Behaviour.poll, Advertise.Bhv.pollCommands, setRemove,
      List.mem_filter]
  · intro b2 hq2 ho2 hin2
    obtain ⟨po, ie, ap, pq, cp, ip⟩ := b2
    simp only at hq2 ho2 hin2
    subst hq2 ho2 hin2
    exact ⟨rfl, rfl, rfl, rfl⟩

/-- Witness for C10: removing advertised peer 3 from {3, 4} and clearing
{1, 2}. -/
theorem C10_remove_vs_clear_witness :
    ((Advertise.Bhv.Behaviour.poll
        { Advertise.Bhv.Behaviour.new with advertised_peers := [3, 4], in_events := [.removeAdvertised 3] }).action
        = some (.generateEvent (.advertisedPeerChanged 3 (decide (3 ∈ [3, 4])))) ∧
      3 ∉ (Advertise.Bhv.Behaviour.poll
        { Advertise.Bhv.Behaviour.new with advertised_peers := [3, 4], in_events := [.removeAdvertised 3] }).st.advertised_peers) ∧
    ((Advertise.Bhv.Behaviour.poll
        { Advertise.Bhv.Behaviour.new with advertised_peers := [1, 2], in_events := [.clearAdvertised] }).st.advertised_peers = [] ∧
      (Advertise.Bhv.Behaviour.poll
        { Advertise.Bhv.Behaviour.new with advertised_peers := [1, 2], in_events := [.clearAdvertised] }).action = none) :=
  ⟨(C10_remove_vs_clear
      { Advertise.Bhv.Behaviour.new with advertised_peers := [3, 4], in_events := [.removeAdvertised 3] } 3 rfl rfl rfl).1,
    ⟨((C10_remove_vs_clear
        { Advertise.Bhv.Behaviour.new with advertised_peers := [3, 4], in_events := [.removeAdvertised 3] } 3 rfl rfl rfl).2
        { Advertise.Bhv.Behaviour.new with advertised_peers := [1, 2], in_events := [.clearAdvertised] } rfl rfl rfl).1,
      ((C10_remove_vs_clear
        { Advertise.Bhv.Behaviour.new with advertised_peers := [3, 4], in_events := [.removeAdvertised 3] } 3 rfl rfl rfl).2
        { Advertise.Bhv.Behaviour.new with advertised_peers := [1, 2], in_events := [.clearAdvertised] } rfl rfl rfl).2.1⟩⟩
